import Mathlib

/-!
Shallow embedding of `scripts/release.ts`, a release-automation script that
shells out to external command-line tools (git, gh, npm, jq, diff) and to the
filesystem.  External collaborators are modelled by an environment `Env` of
oracles: `Env.exec` gives the result of running a shell command via
`execSync`, `Env.readFile` the content `readFileSync` returns at the time of
the read, `Env.mkdtemp` the fresh directory `mkdtempSync` yields for a given
prefix, and so on.  Each script function is translated into a function
`Env → Res α` where `Res α` pairs an outcome (normal return, thrown JS error,
or `process.exit`) with the ordered trace of observable effects (commands
executed, files written/copied/appended/read, directories created or removed,
logger calls).  The logger records every call with its severity; whether the
winston transport prints a given severity is presentation only.
-/

namespace Release

/-- Result of `execSync`: either the captured stdout on success, or — when the
command exits non-zero — the data found on the thrown error object
(`err.status`, `err.stdout`, `err.stderr`). -/
inductive ExecResult where
  | ok (stdout : String)
  | err (status : Nat) (stdout : String) (stderr : String)
deriving Repr, DecidableEq

/-- A thrown JavaScript error: either the error object `execSync` throws on a
non-zero exit, or a plain `Error(message)` as thrown by `update`/`publish`. -/
inductive JsError where
  | execError (status : Nat) (stdout : String) (stderr : String)
  | error (message : String)
deriving Repr, DecidableEq

/-- The `stderr` field of a thrown error (`err.stderr` in the source); a plain
`Error` has none, modelled as the empty string. -/
def JsError.stderrField : JsError → String
  | .execError _ _ e => e
  | .error _ => ""

/-- One observable effect of the script.  `removeDir` models a filesystem
directory removal (`fs.rmSync`/`rmdirSync`); the source never calls one, and
the constructor exists so that absence of cleanup is a statable property. -/
inductive Event where
  | exec (cmd : String)
  | mkdtemp (pre : String) (dir : String)
  | writeFile (path : String) (content : String)
  | copyFile (src : String) (dst : String)
  | appendFile (path : String) (content : String)
  | readFile (path : String)
  | removeDir (path : String)
  | log (level : String) (msg : String)
deriving Repr, DecidableEq

/-- How a script function finishes: a normal return, an uncaught thrown error
(propagating to the caller / the runtime), or an explicit `process.exit`. -/
inductive Outcome (α : Type) where
  | ok (val : α)
  | thrown (e : JsError)
  | exited (code : Nat)
deriving Repr, DecidableEq

/-- A computation's outcome together with the ordered trace of its effects. -/
structure Res (α : Type) where
  out : Outcome α
  trace : List Event
deriving Repr

def Res.bind {α β : Type} (x : Res α) (f : α → Res β) : Res β :=
  match x with
  | ⟨.ok a, t⟩ => ⟨(f a).out, t ++ (f a).trace⟩
  | ⟨.thrown e, t⟩ => ⟨.thrown e, t⟩
  | ⟨.exited c, t⟩ => ⟨.exited c, t⟩

instance : Monad Res where
  pure a := ⟨.ok a, []⟩
  bind := Res.bind

/-- A JS `try { x } catch (err) { h err }` block: a thrown error transfers
control to the handler; normal returns and `process.exit` pass through. -/
def tryCatch {α : Type} (x : Res α) (h : JsError → Res α) : Res α :=
  match x with
  | ⟨.thrown e, t⟩ => ⟨(h e).out, t ++ (h e).trace⟩
  | ⟨.ok a, t⟩ => ⟨.ok a, t⟩
  | ⟨.exited c, t⟩ => ⟨.exited c, t⟩

/-- The environment of external collaborators and ambient state. -/
structure Env where
  /-- Behaviour of `execSync cmd`: captured stdout, or the non-zero exit data. -/
  exec : String → ExecResult
  /-- Content `readFileSync path` returns at the time of the read (for
  `package.json` this is the content after the version bump, since the only
  reads happen after `npm version` ran). -/
  readFile : String → String
  /-- Fresh directory `mkdtempSync pre` creates and returns. -/
  mkdtemp : String → String
  /-- Value of `JSON.parse(s).version` for a manifest text `s`. -/
  jsonVersion : String → String
  /-- Value of `new Date().toISOString()` at the time `init` computes the branch name. -/
  nowISO : String
  /-- Value of `os.tmpdir()`. -/
  tmpdir : String
  /-- Value of `fileURLToPath(new URL("../packages/web-features", import.meta.url))`,
  the directory of the web-features package (`packages["web-features"]`). -/
  webFeaturesDir : String
  /-- Value of `fileURLToPath(new URL("release-pull-description.md", import.meta.url))`,
  the static pull-request description template. -/
  bodyTemplatePath : String

/-- Model of `path.join` of two segments. -/
def join (a b : String) : String := a ++ "/" ++ b

/-- Model of `execSync cmd` with captured output (`encoding: "utf-8"`). -/
def execC (env : Env) (cmd : String) : Res String :=
  match env.exec cmd with
  | .ok o => ⟨.ok o, [.exec cmd]⟩
  | .err s o e => ⟨.thrown (.execError s o e), [.exec cmd]⟩

/-- The source's `run` helper: `execSync(cmd, { stdio: "inherit" })`. -/
def runCmd (env : Env) (cmd : String) : Res Unit :=
  match env.exec cmd with
  | .ok _ => ⟨.ok (), [.exec cmd]⟩
  | .err s o e => ⟨.thrown (.execError s o e), [.exec cmd]⟩

/-- A `logger.<level>(msg)` call. -/
def logE (level msg : String) : Res Unit := ⟨.ok (), [.log level msg]⟩

/-- Model of `mkdtempSync pre`. -/
def mkdtempA (env : Env) (pre : String) : Res String :=
  ⟨.ok (env.mkdtemp pre), [.mkdtemp pre (env.mkdtemp pre)]⟩

/-- Model of `writeFileSync path content`. -/
def writeFileA (path content : String) : Res Unit := ⟨.ok (), [.writeFile path content]⟩

/-- Model of `copyFileSync src dst`. -/
def copyFileA (src dst : String) : Res Unit := ⟨.ok (), [.copyFile src dst]⟩

/-- Model of `appendFileSync path content`. -/
def appendFileA (path content : String) : Res Unit := ⟨.ok (), [.appendFile path content]⟩

/-- Model of `readFileSync path` with utf-8 encoding. -/
def readFileA (env : Env) (path : String) : Res String :=
  ⟨.ok (env.readFile path), [.readFile path]⟩

/-- Model of `process.exit code`. -/
def processExit {α : Type} (code : Nat) : Res α := ⟨.exited code, []⟩

/-- The command `"npm install web-features"` (run with `cwd` set to the temp directory). -/
def npmInstallCmd : String := "npm install web-features"

/-- The command `"npm run build"`. -/
def buildCmd : String := "npm run build"

/-- The command `` `jq . "${fp}"` ``. -/
def jqCmd (fp : String) : String := "jq . \"" ++ fp ++ "\""

/-- The command `` `diff --unified "${a}" "${b}"` ``. -/
def diffCmd (a b : String) : String := "diff --unified \"" ++ a ++ "\" \"" ++ b ++ "\""

/-- The temporary directory `diffJson` creates. -/
def wfTempDir (env : Env) : String := env.mkdtemp (join env.tmpdir "web-features-")

/-- The path `join(temporaryDir, "node_modules", "web-features", "index.json")`. -/
def releasedJsonPath (env : Env) : String :=
  join (join (join (wfTempDir env) "node_modules") "web-features") "index.json"

/-- The path `join(temporaryDir, "index.released.pretty.json")`. -/
def releasedPrettyFp (env : Env) : String := join (wfTempDir env) "index.released.pretty.json"

/-- The path `join(packages["web-features"], "index.json")`. -/
def preparedJsonPath (env : Env) : String := join env.webFeaturesDir "index.json"

/-- The path `join(temporaryDir, "index.prepared.pretty.json")`. -/
def preparedPrettyFp (env : Env) : String := join (wfTempDir env) "index.prepared.pretty.json"

/-- Translation of `diffJson` (release.ts lines 78–117): install the published
package into a fresh temp directory, pretty-print the released and the freshly
built `index.json` with jq, write both to temp files, and run
`diff --unified` on them; a diff exit status of exactly 1 returns the captured
stdout, any other failure is rethrown. -/
def diffJson (env : Env) : Res String := do
  let temporaryDir ← mkdtempA env (join env.tmpdir "web-features-")
  let _ ← execC env npmInstallCmd
  let releasedJson := join (join (join temporaryDir "node_modules") "web-features") "index.json"
  let prettyReleasedJson ← execC env (jqCmd releasedJson)
  let prettyReleasedJsonFp := join temporaryDir "index.released.pretty.json"
  writeFileA prettyReleasedJsonFp prettyReleasedJson
  let _ ← execC env buildCmd
  let preparedJson := join env.webFeaturesDir "index.json"
  let prettyPreparedJson ← execC env (jqCmd preparedJson)
  let prettyPreparedJsonFp := join temporaryDir "index.prepared.pretty.json"
  writeFileA prettyPreparedJsonFp prettyPreparedJson
  tryCatch (execC env (diffCmd prettyReleasedJsonFp prettyPreparedJsonFp))
    (fun err =>
      match err with
      | .execError s o e => if s = 1 then pure o else ⟨.thrown (.execError s o e), []⟩
      | e => ⟨.thrown e, []⟩)

/-- The semantic-versioning level `init` accepts: yargs restricts
`semverlevel` to the choices major, minor, patch, prerelease. -/
inductive SemverLevel where
  | major
  | minor
  | patch
  | prerelease
deriving Repr, DecidableEq

/-- The string form of a semver level, as interpolated into commands. -/
def SemverLevel.str : SemverLevel → String
  | .major => "major"
  | .minor => "minor"
  | .patch => "patch"
  | .prerelease => "prerelease"

/-- The command `"git rev-parse --abbrev-ref HEAD"`. -/
def headCmd : String := "git rev-parse --abbrev-ref HEAD"

/-- The command `"gh version"`. -/
def ghVersionCmd : String := "gh version"

/-- The command `"gh auth status"`. -/
def ghAuthCmd : String := "gh auth status"

/-- The command `"jq --version"`. -/
def jqVersionCmd : String := "jq --version"

/-- Model of JavaScript `String.prototype.trim`: remove whitespace from both
ends of the string. -/
def jsTrim (s : String) : String :=
  ⟨((s.data.dropWhile Char.isWhitespace).reverse.dropWhile Char.isWhitespace).reverse⟩

/-- Model of `s.replace(/[-T:.Z]/g, "")`: every occurrence of the characters
`-`, `T`, `:`, `.`, `Z` is removed. -/
def stripTimestampChars (s : String) : String :=
  ⟨s.data.filter fun c => !(c == '-' || c == 'T' || c == ':' || c == '.' || c == 'Z')⟩

/-- The release branch name `init` computes:
`` `release-${new Date().toISOString().replace(/[-T:.Z]/g, "")}` ``. -/
def releaseBranchName (env : Env) : String :=
  "release-" ++ stripTimestampChars env.nowISO

/-- The command `` `git branch ${releaseBranch} ${head}` ``. -/
def branchCmd (releaseBranch head : String) : String :=
  "git branch " ++ releaseBranch ++ " " ++ head

/-- The command `` `git checkout ${releaseBranch}` ``. -/
def checkoutCmd (releaseBranch : String) : String := "git checkout " ++ releaseBranch

/-- The command `` `npm version --no-git-tag-version ${semverlevel}` `` (run with `cwd`
set to the web-features package directory). -/
def bumpCmd (lvl : SemverLevel) : String := "npm version --no-git-tag-version " ++ lvl.str

/-- The command `` `git commit --all --message="${commitMessage}"` ``. -/
def commitCmd (commitMessage : String) : String :=
  "git commit --all --message=\"" ++ commitMessage ++ "\""

/-- The command `` `git push --set-upstream origin ${releaseBranch}` ``. -/
def pushCmd (releaseBranch : String) : String :=
  "git push --set-upstream origin " ++ releaseBranch

/-- The `gh pr create` invocation built on release.ts lines 224–232. -/
def prCreateCmd (title bodyFile releaseBranch : String) : String :=
  "gh pr create --title=\"" ++ title ++ "\" --reviewer=\"ddbeck\" --body-file=" ++
    bodyFile ++ " --repo=\"ddbeck/feature-set\" --base=\"main\" --head=\"" ++
    releaseBranch ++ "\""

/-- The path `join(packages["web-features"], "package.json")`. -/
def manifestPath (env : Env) : String := join env.webFeaturesDir "package.json"

/-- The temporary directory `init` creates for the pull-request body. -/
def prTempDir (env : Env) : String := env.mkdtemp (join env.tmpdir "pull-request-")

/-- The path `join(temporaryDir, "body.md")`, the fresh copy of the description template. -/
def prBodyFp (env : Env) : String := join (prTempDir env) "body.md"

/-- The text appended to the pull-request body file:
`["```diff", diff, "```"].join("\n")`. -/
def diffFence (diff : String) : String := "```diff\n" ++ diff ++ "\n```"

/-- Translation of `init` (release.ts lines 119–234): preflight checks (base
branch, gh CLI presence and auth, jq presence), diff production, release
branch creation and checkout, version bump, manifest read-back, commit, push,
and pull-request creation. -/
def init (env : Env) (semverlevel : SemverLevel) : Res Unit := do
  logE "info" "Running preflight checks"
  logE "info" "Checking base branch"
  logE "debug" headCmd
  let headRaw ← execC env headCmd
  let head := jsTrim headRaw
  if head ≠ "main" then
    logE "warn" "Base banch is not main"
  else
    pure ()
  logE "info" "Confirming gh CLI is installed and authorized"
  tryCatch
    (do
      logE "debug" ghVersionCmd
      let _ ← execC env ghVersionCmd
      pure ())
    (fun _ => do
      logE "error" "gh CLI failed to run. Do you have it installed?"
      processExit 1)
  tryCatch
    (do
      logE "debug" ghAuthCmd
      runCmd env ghAuthCmd)
    (fun err => do
      logE "error"
        "`gh auth status` was non-zero. Try running `gh auth login` or `gh auth refresh` and try again."
      logE "error" err.stderrField
      processExit 1)
  logE "info" "Confirming jq is installed"
  tryCatch
    (do
      logE "debug" jqVersionCmd
      let _ ← execC env jqVersionCmd
      pure ())
    (fun _ => do
      logE "error" "jq failed to run. Do you have it installed?"
      processExit 1)
  let diff ← diffJson env
  let releaseBranch := releaseBranchName env
  logE "info" ("Starting release branch " ++ releaseBranch)
  runCmd env (branchCmd releaseBranch head)
  logE "info" ("Checking out release branch " ++ releaseBranch)
  logE "debug" (checkoutCmd releaseBranch)
  let _ ← execC env (checkoutCmd releaseBranch)
  logE "info" "Bumping version number"
  logE "debug" (bumpCmd semverlevel)
  let _ ← execC env (bumpCmd semverlevel)
  let manifest ← readFileA env (manifestPath env)
  let version := env.jsonVersion manifest
  let manifestAgain ← readFileA env (manifestPath env)
  logE "debug" manifestAgain
  logE "info" "Committing version bump"
  let commitMessage := "Increment " ++ semverlevel.str ++ " version to v" ++ version
  runCmd env (commitCmd commitMessage)
  logE "info" "Pushing release branch"
  runCmd env (pushCmd releaseBranch)
  logE "info" ("Creating PR for " ++ version)
  let title := "📦 Release web-features@" ++ version
  let bodyFile := env.bodyTemplatePath
  let temporaryDir ← mkdtempA env (join env.tmpdir "pull-request-")
  let temporaryBodyFile := join temporaryDir "body.md"
  copyFileA bodyFile temporaryBodyFile
  appendFileA temporaryBodyFile (diffFence diff)
  runCmd env (prCreateCmd title temporaryBodyFile releaseBranch)

/-- An event that mutates external state: any git/gh/npm command that writes
to the repository, the remote, or the filesystem (branch creation, checkout,
commit, push, pull-request creation, any npm invocation), and every
filesystem write (including temp-directory creation).  Read-only probes
(`git rev-parse`, `gh version`, `gh auth status`, `jq --version`), file reads
and logging are not mutating. -/
def Event.isMutating : Event → Bool
  | .exec cmd =>
      "git branch".data.isPrefixOf cmd.data ||
      "git checkout".data.isPrefixOf cmd.data ||
      "git commit".data.isPrefixOf cmd.data ||
      "git push".data.isPrefixOf cmd.data ||
      "gh pr create".data.isPrefixOf cmd.data ||
      "npm".data.isPrefixOf cmd.data
  | .writeFile _ _ => true
  | .copyFile _ _ => true
  | .appendFile _ _ => true
  | .mkdtemp _ _ => true
  | .removeDir _ => true
  | .readFile _ => false
  | .log _ _ => false

/-- A character that can occur in `new Date().toISOString()` for dates in the
standard 24-character format `YYYY-MM-DDTHH:mm:ss.sssZ`: a decimal digit or
one of the five punctuation characters `-`, `T`, `:`, `.`, `Z`. -/
def isoTimestampChar (c : Char) : Bool :=
  c.isDigit || c == '-' || c == 'T' || c == ':' || c == '.' || c == 'Z'

/-- The trace `diffJson` produces when every external command succeeds (or the
final diff exits with status 1, which contributes the same single `exec`
event); `j1`/`j2` are the two jq pretty-printed outputs. -/
def diffOkTrace (env : Env) (j1 j2 : String) : List Event :=
  [ .mkdtemp (join env.tmpdir "web-features-") (wfTempDir env),
    .exec npmInstallCmd,
    .exec (jqCmd (releasedJsonPath env)),
    .writeFile (releasedPrettyFp env) j1,
    .exec buildCmd,
    .exec (jqCmd (preparedJsonPath env)),
    .writeFile (preparedPrettyFp env) j2,
    .exec (diffCmd (releasedPrettyFp env) (preparedPrettyFp env)) ]

/-- The version string `init` reads back from the package manifest after the
bump: `JSON.parse(readFileSync(join(packages["web-features"], "package.json"))).version`. -/
def bumpedVersion (env : Env) : String :=
  env.jsonVersion (env.readFile (manifestPath env))

/-- The trace `init` produces when every external command succeeds (the diff
possibly exiting with status 1); `head` is the trimmed `git rev-parse` output,
`j1`/`j2` the jq outputs, `d` the diff text. -/
def initOkTrace (env : Env) (lvl : SemverLevel) (head j1 j2 d : String) : List Event :=
  [ .log "info" "Running preflight checks",
    .log "info" "Checking base branch",
    .log "debug" headCmd,
    .exec headCmd ] ++
  (if head = "main" then [] else [.log "warn" "Base banch is not main"]) ++
  [ .log "info" "Confirming gh CLI is installed and authorized",
    .log "debug" ghVersionCmd,
    .exec ghVersionCmd,
    .log "debug" ghAuthCmd,
    .exec ghAuthCmd,
    .log "info" "Confirming jq is installed",
    .log "debug" jqVersionCmd,
    .exec jqVersionCmd ] ++
  diffOkTrace env j1 j2 ++
  [ .log "info" ("Starting release branch " ++ releaseBranchName env),
    .exec (branchCmd (releaseBranchName env) head),
    .log "info" ("Checking out release branch " ++ releaseBranchName env),
    .log "debug" (checkoutCmd (releaseBranchName env)),
    .exec (checkoutCmd (releaseBranchName env)),
    .log "info" "Bumping version number",
    .log "debug" (bumpCmd lvl),
    .exec (bumpCmd lvl),
    .readFile (manifestPath env),
    .readFile (manifestPath env),
    .log "debug" (env.readFile (manifestPath env)),
    .log "info" "Committing version bump",
    .exec (commitCmd ("Increment " ++ lvl.str ++ " version to v" ++ bumpedVersion env)),
    .log "info" "Pushing release branch",
    .exec (pushCmd (releaseBranchName env)),
    .log "info" ("Creating PR for " ++ bumpedVersion env),
    .mkdtemp (join env.tmpdir "pull-request-") (prTempDir env),
    .copyFile env.bodyTemplatePath (prBodyFp env),
    .appendFile (prBodyFp env) (diffFence d),
    .exec (prCreateCmd ("📦 Release web-features@" ++ bumpedVersion env) (prBodyFp env)
      (releaseBranchName env)) ]

/-- A concrete test environment in which every external command succeeds with
stdout `"OUT"`. -/
def okEnv : Env where
  exec := fun _ => .ok "OUT"
  readFile := fun _ => "MANIFEST"
  mkdtemp := fun pre => pre ++ "XXXXXX"
  jsonVersion := fun _ => "1.0.1"
  nowISO := "2026-10-11T12:34:56.789Z"
  tmpdir := "/tmp"
  webFeaturesDir := "/repo/packages/web-features"
  bodyTemplatePath := "/repo/scripts/release-pull-description.md"

/-- A test environment in which `gh version` fails with status 127. -/
def ghFailEnv : Env :=
  { okEnv with exec := fun c => if c = ghVersionCmd then .err 127 "" "gh not found" else .ok "OUT" }

/-- A test environment in which `gh auth status` exits non-zero. -/
def authFailEnv : Env :=
  { okEnv with exec := fun c => if c = ghAuthCmd then .err 1 "" "not logged in" else .ok "OUT" }

/-- A test environment in which `jq --version` fails with status 127. -/
def jqFailEnv : Env :=
  { okEnv with exec := fun c => if c = jqVersionCmd then .err 127 "" "jq not found" else .ok "OUT" }

/-- A test environment in which the diff command exits with status 1
("differences found") and stdout `"DIFFOUT"`. -/
def diffErr1Env : Env :=
  { okEnv with exec := fun c =>
      if c = diffCmd (releasedPrettyFp okEnv) (preparedPrettyFp okEnv) then
        ExecResult.err 1 "DIFFOUT" ""
      else ExecResult.ok "OUT" }

/-- A test environment in which the diff command exits with status 2 (a real
diff failure). -/
def diffErr2Env : Env :=
  { okEnv with exec := fun c =>
      if c = diffCmd (releasedPrettyFp okEnv) (preparedPrettyFp okEnv) then
        ExecResult.err 2 "" "trouble"
      else ExecResult.ok "OUT" }

/-- Translation of `update` (release.ts lines 236–241): the body is only TODO
comments followed by `throw Error("Not implemented")`. -/
def update {α : Type} (_args : α) : Res Unit :=
  ⟨.thrown (.error "Not implemented"), []⟩

/-- Translation of `publish` (release.ts lines 243–246): the body is only a
TODO comment followed by `throw Error("Not implemented")`. -/
def publish {α : Type} (_args : α) : Res Unit :=
  ⟨.thrown (.error "Not implemented"), []⟩

/-- Lifting a pure value into `Res` returns normally with an empty trace. -/
@[simp] theorem Res.pure_def {α : Type} (a : α) : (pure a : Res α) = ⟨.ok a, []⟩ := rfl

/-- The bind operator of `Res` is `Res.bind`. -/
@[simp] theorem Res.bind_def {α β : Type} (x : Res α) (f : α → Res β) :
    x >>= f = Res.bind x f := rfl

/-- Binding a normal return runs the continuation and appends its trace. -/
@[simp] theorem Res.bind_ok {α β : Type} (a : α) (t : List Event) (f : α → Res β) :
    Res.bind ⟨.ok a, t⟩ f = ⟨(f a).out, t ++ (f a).trace⟩ := rfl

/-- Binding a thrown error short-circuits. -/
@[simp] theorem Res.bind_thrown {α β : Type} (e : JsError) (t : List Event) (f : α → Res β) :
    Res.bind ⟨.thrown e, t⟩ f = ⟨.thrown e, t⟩ := rfl

/-- Binding a `process.exit` short-circuits. -/
@[simp] theorem Res.bind_exited {α β : Type} (c : Nat) (t : List Event) (f : α → Res β) :
    Res.bind ⟨.exited c, t⟩ f = ⟨.exited c, t⟩ := rfl

/-- Binding distributes over a conditional. -/
@[simp] theorem Res.bind_ite {α β : Type} (c : Prop) [Decidable c] (x y : Res α)
    (f : α → Res β) :
    Res.bind (if c then x else y) f = if c then Res.bind x f else Res.bind y f := by
  split <;> rfl

/-- A `try` block that returns normally skips the handler. -/
@[simp] theorem tryCatch_ok {α : Type} (a : α) (t : List Event) (h : JsError → Res α) :
    tryCatch ⟨.ok a, t⟩ h = ⟨.ok a, t⟩ := rfl

/-- A `try` block that throws runs the handler. -/
@[simp] theorem tryCatch_thrown {α : Type} (e : JsError) (t : List Event) (h : JsError → Res α) :
    tryCatch ⟨.thrown e, t⟩ h = ⟨(h e).out, t ++ (h e).trace⟩ := rfl

/-- A `try` block that exits the process is not caught. -/
@[simp] theorem tryCatch_exited {α : Type} (c : Nat) (t : List Event) (h : JsError → Res α) :
    tryCatch ⟨.exited c, t⟩ h = ⟨.exited c, t⟩ := rfl

/-- Evaluation of `diffJson` when the four preparation commands succeed and the
diff command either succeeds or exits with status 1: the result is the diff
text and the trace is `diffOkTrace`. -/
theorem diffJson_ok_eval (env : Env) (i j1 b j2 d : String)
    (hi : env.exec npmInstallCmd = .ok i)
    (hj1 : env.exec (jqCmd (releasedJsonPath env)) = .ok j1)
    (hb : env.exec buildCmd = .ok b)
    (hj2 : env.exec (jqCmd (preparedJsonPath env)) = .ok j2)
    (hd : env.exec (diffCmd (releasedPrettyFp env) (preparedPrettyFp env)) = .ok d ∨
      ∃ e, env.exec (diffCmd (releasedPrettyFp env) (preparedPrettyFp env)) = .err 1 d e) :
    diffJson env = ⟨.ok d, diffOkTrace env j1 j2⟩ := by
  simp only [releasedJsonPath, preparedJsonPath, releasedPrettyFp, preparedPrettyFp,
    wfTempDir, jqCmd, diffCmd, join] at hj1 hj2 hd
  rcases hd with hd | ⟨e, hd⟩ <;>
    simp [diffJson, diffOkTrace, execC, writeFileA, mkdtempA, tryCatch, hi, hj1, hb, hj2, hd,
      releasedJsonPath, preparedJsonPath, releasedPrettyFp, preparedPrettyFp, wfTempDir,
      jqCmd, diffCmd, join]

/-- Evaluation of `init` when every external command succeeds (the diff
possibly exiting with status 1): the run completes normally and its trace is
`initOkTrace`. -/
theorem init_ok_eval (env : Env) (lvl : SemverLevel)
    (ho g a q i j1 b j2 d br co bu cm pu pr : String)
    (hh : env.exec headCmd = .ok ho)
    (hg : env.exec ghVersionCmd = .ok g)
    (ha : env.exec ghAuthCmd = .ok a)
    (hq : env.exec jqVersionCmd = .ok q)
    (hi : env.exec npmInstallCmd = .ok i)
    (hj1 : env.exec (jqCmd (releasedJsonPath env)) = .ok j1)
    (hb : env.exec buildCmd = .ok b)
    (hj2 : env.exec (jqCmd (preparedJsonPath env)) = .ok j2)
    (hd : env.exec (diffCmd (releasedPrettyFp env) (preparedPrettyFp env)) = .ok d ∨
      ∃ e, env.exec (diffCmd (releasedPrettyFp env) (preparedPrettyFp env)) = .err 1 d e)
    (hbr : env.exec (branchCmd (releaseBranchName env) (jsTrim ho)) = .ok br)
    (hco : env.exec (checkoutCmd (releaseBranchName env)) = .ok co)
    (hbu : env.exec (bumpCmd lvl) = .ok bu)
    (hcm : env.exec
      (commitCmd ("Increment " ++ lvl.str ++ " version to v" ++ bumpedVersion env)) = .ok cm)
    (hpu : env.exec (pushCmd (releaseBranchName env)) = .ok pu)
    (hpr : env.exec (prCreateCmd ("📦 Release web-features@" ++ bumpedVersion env)
      (prBodyFp env) (releaseBranchName env)) = .ok pr) :
    init env lvl = ⟨.ok (), initOkTrace env lvl (jsTrim ho) j1 j2 d⟩ := by
  have hdj := diffJson_ok_eval env i j1 b j2 d hi hj1 hb hj2 hd
  simp only [bumpedVersion] at hcm hpr
  simp only [prBodyFp, prTempDir] at hpr
  simp [init, initOkTrace, execC, runCmd, logE, mkdtempA, readFileA, copyFileA, appendFileA,
    tryCatch, hdj, hh, hg, ha, hq, hbr, hco, hbu, hcm, hpu, hpr, bumpedVersion, prTempDir,
    prBodyFp]
  by_cases hmain : (jsTrim ho) = "main" <;> simp [hmain]

/-- Running `execC` records exactly one `exec` event, whatever the command's result. -/
theorem execC_trace (env : Env) (cmd : String) : (execC env cmd).trace = [.exec cmd] := by
  unfold execC
  cases env.exec cmd <;> rfl

/-- Running `runCmd` records exactly one `exec` event, whatever the command's result. -/
theorem runCmd_trace (env : Env) (cmd : String) : (runCmd env cmd).trace = [.exec cmd] := by
  unfold runCmd
  cases env.exec cmd <;> rfl

/-- An event absent from both parts of a bind is absent from the bind. -/
theorem not_mem_bind_trace {α β : Type} {ev : Event} (x : Res α) (f : α → Res β)
    (hx : ev ∉ x.trace) (hf : ∀ a, ev ∉ (f a).trace) : ev ∉ (x >>= f).trace := by
  rcases x with ⟨o, t⟩
  cases o <;> simp_all [Res.bind, Bind.bind]

/-- An event absent from the body and from every handler run is absent from a
`try`/`catch`. -/
theorem not_mem_tryCatch_trace {α : Type} {ev : Event} (x : Res α) (h : JsError → Res α)
    (hx : ev ∉ x.trace) (hh : ∀ e, ev ∉ (h e).trace) : ev ∉ (tryCatch x h).trace := by
  rcases x with ⟨o, t⟩
  cases o <;> simp_all [tryCatch]

/-- Stripping the five timestamp punctuation characters from a string made of
digits and those characters leaves only digits. -/
theorem stripTimestampChars_digits (s : String)
    (h : ∀ c ∈ s.data, isoTimestampChar c = true) :
    ∀ c ∈ (stripTimestampChars s).data, c.isDigit = true := by
  intro c hc
  simp only [stripTimestampChars] at hc
  rw [List.mem_filter] at hc
  obtain ⟨hmem, hkeep⟩ := hc
  have hiso := h c hmem
  simp only [isoTimestampChar, Bool.or_eq_true, beq_iff_eq] at hiso
  simp only [Bool.not_eq_true', Bool.or_eq_false_iff, beq_eq_false_iff_ne, ne_eq] at hkeep
  rcases hiso with h1 | h2 | h3 | h4 | h5 | h6 <;> simp_all

/-- C1: if the unified-diff command exits with status 1, `diffJson` returns
the command's captured stdout as the diff text and continues as success; any
other non-zero exit status propagates to the caller as the rethrown original
error. -/
theorem diffJson_diff_exit_status (env : Env) (i j1 b j2 : String) (s : Nat) (o e : String)
    (hi : env.exec npmInstallCmd = .ok i)
    (hj1 : env.exec (jqCmd (releasedJsonPath env)) = .ok j1)
    (hb : env.exec buildCmd = .ok b)
    (hj2 : env.exec (jqCmd (preparedJsonPath env)) = .ok j2)
    (hd : env.exec (diffCmd (releasedPrettyFp env) (preparedPrettyFp env)) = .err s o e) :
    (s = 1 → (diffJson env).out = .ok o) ∧
    (s ≠ 1 → (diffJson env).out = .thrown (.execError s o e)) := by
  simp only [releasedJsonPath, preparedJsonPath, releasedPrettyFp, preparedPrettyFp,
    wfTempDir, jqCmd, diffCmd, join] at hj1 hj2 hd
  constructor <;> intro hs <;>
    simp [diffJson, execC, writeFileA, mkdtempA, tryCatch, hi, hj1, hb, hj2, hd, hs,
      releasedJsonPath, preparedJsonPath, releasedPrettyFp, preparedPrettyFp, wfTempDir,
      jqCmd, diffCmd, join]

/-- Witness for C1 at concrete environments: status 1 yields the captured
stdout, status 2 rethrows the error. -/
theorem diffJson_diff_exit_status_witness :
    (diffJson diffErr1Env).out = .ok "DIFFOUT" ∧
    (diffJson diffErr2Env).out = .thrown (.execError 2 "" "trouble") :=
  ⟨(diffJson_diff_exit_status diffErr1Env "OUT" "OUT" "OUT" "OUT" 1 "DIFFOUT" ""
      (by decide) (by decide) (by decide) (by decide) (by decide)).1 rfl,
   (diffJson_diff_exit_status diffErr2Env "OUT" "OUT" "OUT" "OUT" 2 "" "trouble"
      (by decide) (by decide) (by decide) (by decide) (by decide)).2 (by decide)⟩

/-- C2: when the `gh auth status` check fails, `init` halts with exit code 1
and its trace contains no mutating command and no filesystem write — in
particular no branch creation, commit, push, or pull-request creation. -/
theorem init_auth_failure_no_mutation (env : Env) (lvl : SemverLevel)
    (ho g : String) (s : Nat) (o e : String)
    (hh : env.exec headCmd = .ok ho)
    (hg : env.exec ghVersionCmd = .ok g)
    (ha : env.exec ghAuthCmd = .err s o e) :
    (init env lvl).out = .exited 1 ∧
    ∀ ev ∈ (init env lvl).trace, ev.isMutating = false := by
  by_cases hmain : (jsTrim ho) = "main" <;>
    simp [init, execC, runCmd, logE, tryCatch, processExit, hh, hg, ha, hmain,
      JsError.stderrField, Event.isMutating] <;>
    decide

/-- Witness for C2 at a concrete unauthenticated environment. -/
theorem init_auth_failure_no_mutation_witness :
    (init authFailEnv .patch).out = .exited 1 ∧
    ∀ ev ∈ (init authFailEnv .patch).trace, ev.isMutating = false :=
  init_auth_failure_no_mutation authFailEnv .patch "OUT" "OUT" 1 "" "not logged in"
    (by decide) (by decide) (by decide)

/-- C5: `update` and `publish` always fail with the "Not implemented" error
and perform no side effects: their traces are empty, so no external command is
invoked and no file is written before the error is thrown. -/
theorem update_publish_not_implemented {α β : Type} (a : α) (b : β) :
    update a = ⟨.thrown (.error "Not implemented"), []⟩ ∧
    publish b = ⟨.thrown (.error "Not implemented"), []⟩ :=
  ⟨rfl, rfl⟩

/-- C9: on every execution path of `diffJson` — success, diff exit status 1,
or any failure — no directory removal is ever performed: the temporary
directory is never cleaned up. -/
theorem diffJson_no_cleanup (env : Env) (p : String) :
    Event.removeDir p ∉ (diffJson env).trace := by
  simp only [diffJson]
  refine not_mem_bind_trace _ _ (by simp [mkdtempA]) fun tdir => ?_
  refine not_mem_bind_trace _ _ (by simp [execC_trace]) fun _ => ?_
  refine not_mem_bind_trace _ _ (by simp [execC_trace]) fun pr1 => ?_
  refine not_mem_bind_trace _ _ (by simp [writeFileA]) fun _ => ?_
  refine not_mem_bind_trace _ _ (by simp [execC_trace]) fun _ => ?_
  refine not_mem_bind_trace _ _ (by simp [execC_trace]) fun pr2 => ?_
  refine not_mem_bind_trace _ _ (by simp [writeFileA]) fun _ => ?_
  refine not_mem_tryCatch_trace _ _ (by simp [execC_trace]) fun e => ?_
  rcases e with ⟨s, o, e'⟩ | m
  · by_cases h1 : s = 1 <;> simp [h1]
  · simp

/-- C3: on a run of `init` that reaches branch creation, the release branch
name is `release-` followed by the ISO 8601 timestamp with every `-`, `T`,
`:`, `.`, `Z` character removed — hence `release-` followed by digits only,
with no punctuation — and the `git branch` command uses exactly that name. -/
theorem init_release_branch_digits (env : Env) (lvl : SemverLevel)
    (ho g a q i j1 b j2 d br co bu cm pu pr : String)
    (hh : env.exec headCmd = .ok ho)
    (hg : env.exec ghVersionCmd = .ok g)
    (ha : env.exec ghAuthCmd = .ok a)
    (hq : env.exec jqVersionCmd = .ok q)
    (hi : env.exec npmInstallCmd = .ok i)
    (hj1 : env.exec (jqCmd (releasedJsonPath env)) = .ok j1)
    (hb : env.exec buildCmd = .ok b)
    (hj2 : env.exec (jqCmd (preparedJsonPath env)) = .ok j2)
    (hd : env.exec (diffCmd (releasedPrettyFp env) (preparedPrettyFp env)) = .ok d ∨
      ∃ e, env.exec (diffCmd (releasedPrettyFp env) (preparedPrettyFp env)) = .err 1 d e)
    (hbr : env.exec (branchCmd (releaseBranchName env) (jsTrim ho)) = .ok br)
    (hco : env.exec (checkoutCmd (releaseBranchName env)) = .ok co)
    (hbu : env.exec (bumpCmd lvl) = .ok bu)
    (hcm : env.exec
      (commitCmd ("Increment " ++ lvl.str ++ " version to v" ++ bumpedVersion env)) = .ok cm)
    (hpu : env.exec (pushCmd (releaseBranchName env)) = .ok pu)
    (hpr : env.exec (prCreateCmd ("📦 Release web-features@" ++ bumpedVersion env)
      (prBodyFp env) (releaseBranchName env)) = .ok pr)
    (hiso : ∀ c ∈ env.nowISO.data, isoTimestampChar c = true) :
    releaseBranchName env = "release-" ++ stripTimestampChars env.nowISO ∧
    (∀ c ∈ (stripTimestampChars env.nowISO).data, c.isDigit = true) ∧
    Event.exec (branchCmd (releaseBranchName env) (jsTrim ho)) ∈ (init env lvl).trace := by
  refine ⟨rfl, stripTimestampChars_digits env.nowISO hiso, ?_⟩
  rw [init_ok_eval env lvl ho g a q i j1 b j2 d br co bu cm pu pr hh hg ha hq hi hj1 hb hj2
    hd hbr hco hbu hcm hpu hpr]
  simp [initOkTrace]

/-- Witness for C3 at a concrete environment with a concrete timestamp. -/
theorem init_release_branch_digits_witness :
    releaseBranchName okEnv = "release-" ++ stripTimestampChars okEnv.nowISO ∧
    (∀ c ∈ (stripTimestampChars okEnv.nowISO).data, c.isDigit = true) ∧
    Event.exec (branchCmd (releaseBranchName okEnv) (jsTrim "OUT")) ∈ (init okEnv .patch).trace :=
  init_release_branch_digits okEnv .patch "OUT" "OUT" "OUT" "OUT" "OUT" "OUT" "OUT" "OUT"
    "OUT" "OUT" "OUT" "OUT" "OUT" "OUT" "OUT"
    (by decide) (by decide) (by decide) (by decide) (by decide) (by decide) (by decide)
    (by decide) (Or.inl (by decide)) (by decide) (by decide) (by decide) (by decide)
    (by decide) (by decide) (by decide)

/-- C4: for every semver level, when `init` reaches the commit step, the
commit message is exactly `Increment <level> version to v<version>` where the
version is the one read back from the package manifest after the bump. -/
theorem init_commit_message_format (env : Env) (lvl : SemverLevel)
    (ho g a q i j1 b j2 d br co bu cm pu pr : String)
    (hh : env.exec headCmd = .ok ho)
    (hg : env.exec ghVersionCmd = .ok g)
    (ha : env.exec ghAuthCmd = .ok a)
    (hq : env.exec jqVersionCmd = .ok q)
    (hi : env.exec npmInstallCmd = .ok i)
    (hj1 : env.exec (jqCmd (releasedJsonPath env)) = .ok j1)
    (hb : env.exec buildCmd = .ok b)
    (hj2 : env.exec (jqCmd (preparedJsonPath env)) = .ok j2)
    (hd : env.exec (diffCmd (releasedPrettyFp env) (preparedPrettyFp env)) = .ok d ∨
      ∃ e, env.exec (diffCmd (releasedPrettyFp env) (preparedPrettyFp env)) = .err 1 d e)
    (hbr : env.exec (branchCmd (releaseBranchName env) (jsTrim ho)) = .ok br)
    (hco : env.exec (checkoutCmd (releaseBranchName env)) = .ok co)
    (hbu : env.exec (bumpCmd lvl) = .ok bu)
    (hcm : env.exec
      (commitCmd ("Increment " ++ lvl.str ++ " version to v" ++ bumpedVersion env)) = .ok cm)
    (hpu : env.exec (pushCmd (releaseBranchName env)) = .ok pu)
    (hpr : env.exec (prCreateCmd ("📦 Release web-features@" ++ bumpedVersion env)
      (prBodyFp env) (releaseBranchName env)) = .ok pr) :
    Event.exec (commitCmd ("Increment " ++ lvl.str ++ " version to v" ++ bumpedVersion env))
      ∈ (init env lvl).trace := by
  rw [init_ok_eval env lvl ho g a q i j1 b j2 d br co bu cm pu pr hh hg ha hq hi hj1 hb hj2
    hd hbr hco hbu hcm hpu hpr]
  simp [initOkTrace]

/-- Witness for C4 at a concrete environment with the prerelease level. -/
theorem init_commit_message_format_witness :
    Event.exec (commitCmd ("Increment " ++ SemverLevel.str .prerelease ++ " version to v" ++
      bumpedVersion okEnv)) ∈ (init okEnv .prerelease).trace :=
  init_commit_message_format okEnv .prerelease "OUT" "OUT" "OUT" "OUT" "OUT" "OUT" "OUT" "OUT"
    "OUT" "OUT" "OUT" "OUT" "OUT" "OUT" "OUT"
    (by decide) (by decide) (by decide) (by decide) (by decide) (by decide) (by decide)
    (by decide) (Or.inl (by decide)) (by decide) (by decide) (by decide) (by decide)
    (by decide) (by decide)

/-- C6: in preflight, failure of the `gh version` probe, of `gh auth status`,
or of the `jq --version` probe is logged at error severity and halts the
process with an explicit exit code 1. -/
theorem init_preflight_failures_fatal (env : Env) (lvl : SemverLevel) :
    (∀ ho s o e, env.exec headCmd = .ok ho → env.exec ghVersionCmd = .err s o e →
      (init env lvl).out = .exited 1 ∧
      Event.log "error" "gh CLI failed to run. Do you have it installed?"
        ∈ (init env lvl).trace) ∧
    (∀ ho g s o e, env.exec headCmd = .ok ho → env.exec ghVersionCmd = .ok g →
      env.exec ghAuthCmd = .err s o e →
      (init env lvl).out = .exited 1 ∧
      Event.log "error"
        "`gh auth status` was non-zero. Try running `gh auth login` or `gh auth refresh` and try again."
        ∈ (init env lvl).trace) ∧
    (∀ ho g a s o e, env.exec headCmd = .ok ho → env.exec ghVersionCmd = .ok g →
      env.exec ghAuthCmd = .ok a → env.exec jqVersionCmd = .err s o e →
      (init env lvl).out = .exited 1 ∧
      Event.log "error" "jq failed to run. Do you have it installed?"
        ∈ (init env lvl).trace) := by
  refine ⟨?_, ?_, ?_⟩
  · intro ho s o e hh hg
    by_cases hmain : (jsTrim ho) = "main" <;>
      simp [init, execC, runCmd, logE, tryCatch, processExit, hh, hg, hmain,
        JsError.stderrField]
  · intro ho g s o e hh hg ha
    by_cases hmain : (jsTrim ho) = "main" <;>
      simp [init, execC, runCmd, logE, tryCatch, processExit, hh, hg, ha, hmain,
        JsError.stderrField]
  · intro ho g a s o e hh hg ha hq
    by_cases hmain : (jsTrim ho) = "main" <;>
      simp [init, execC, runCmd, logE, tryCatch, processExit, hh, hg, ha, hq, hmain,
        JsError.stderrField]

/-- Witness for C6 at three concrete environments, one per failing probe. -/
theorem init_preflight_failures_fatal_witness :
    ((init ghFailEnv .patch).out = .exited 1 ∧
      Event.log "error" "gh CLI failed to run. Do you have it installed?"
        ∈ (init ghFailEnv .patch).trace) ∧
    ((init authFailEnv .patch).out = .exited 1 ∧
      Event.log "error"
        "`gh auth status` was non-zero. Try running `gh auth login` or `gh auth refresh` and try again."
        ∈ (init authFailEnv .patch).trace) ∧
    ((init jqFailEnv .patch).out = .exited 1 ∧
      Event.log "error" "jq failed to run. Do you have it installed?"
        ∈ (init jqFailEnv .patch).trace) :=
  ⟨(init_preflight_failures_fatal ghFailEnv .patch).1 "OUT" 127 "" "gh not found"
      (by decide) (by decide),
   (init_preflight_failures_fatal authFailEnv .patch).2.1 "OUT" "OUT" 1 "" "not logged in"
      (by decide) (by decide) (by decide),
   (init_preflight_failures_fatal jqFailEnv .patch).2.2 "OUT" "OUT" "OUT" 127 "" "jq not found"
      (by decide) (by decide) (by decide) (by decide)⟩

/-- C7: when HEAD is not `main`, the preflight only emits a warning and the
workflow continues to the gh check; with the external commands succeeding the
whole run completes normally, so the mismatch is never fatal. -/
theorem init_nonmain_branch_warns (env : Env) (lvl : SemverLevel)
    (ho g a q i j1 b j2 d br co bu cm pu pr : String)
    (hh : env.exec headCmd = .ok ho)
    (hg : env.exec ghVersionCmd = .ok g)
    (ha : env.exec ghAuthCmd = .ok a)
    (hq : env.exec jqVersionCmd = .ok q)
    (hi : env.exec npmInstallCmd = .ok i)
    (hj1 : env.exec (jqCmd (releasedJsonPath env)) = .ok j1)
    (hb : env.exec buildCmd = .ok b)
    (hj2 : env.exec (jqCmd (preparedJsonPath env)) = .ok j2)
    (hd : env.exec (diffCmd (releasedPrettyFp env) (preparedPrettyFp env)) = .ok d ∨
      ∃ e, env.exec (diffCmd (releasedPrettyFp env) (preparedPrettyFp env)) = .err 1 d e)
    (hbr : env.exec (branchCmd (releaseBranchName env) (jsTrim ho)) = .ok br)
    (hco : env.exec (checkoutCmd (releaseBranchName env)) = .ok co)
    (hbu : env.exec (bumpCmd lvl) = .ok bu)
    (hcm : env.exec
      (commitCmd ("Increment " ++ lvl.str ++ " version to v" ++ bumpedVersion env)) = .ok cm)
    (hpu : env.exec (pushCmd (releaseBranchName env)) = .ok pu)
    (hpr : env.exec (prCreateCmd ("📦 Release web-features@" ++ bumpedVersion env)
      (prBodyFp env) (releaseBranchName env)) = .ok pr)
    (hmain : (jsTrim ho) ≠ "main") :
    (init env lvl).out = .ok () ∧
    Event.log "warn" "Base banch is not main" ∈ (init env lvl).trace ∧
    Event.exec ghVersionCmd ∈ (init env lvl).trace := by
  rw [init_ok_eval env lvl ho g a q i j1 b j2 d br co bu cm pu pr hh hg ha hq hi hj1 hb hj2
    hd hbr hco hbu hcm hpu hpr]
  simp [initOkTrace, hmain]

/-- Witness for C7 at a concrete environment whose HEAD is not `main`. -/
theorem init_nonmain_branch_warns_witness :
    (init okEnv .patch).out = .ok () ∧
    Event.log "warn" "Base banch is not main" ∈ (init okEnv .patch).trace ∧
    Event.exec ghVersionCmd ∈ (init okEnv .patch).trace :=
  init_nonmain_branch_warns okEnv .patch "OUT" "OUT" "OUT" "OUT" "OUT" "OUT" "OUT" "OUT"
    "OUT" "OUT" "OUT" "OUT" "OUT" "OUT" "OUT"
    (by decide) (by decide) (by decide) (by decide) (by decide) (by decide) (by decide)
    (by decide) (Or.inl (by decide)) (by decide) (by decide) (by decide) (by decide)
    (by decide) (by decide) (by decide)

/-- C8: on a completing run of `init`, the static pull-request description
template is only read and copied, never written in place: the diff, fenced as
a diff code block, is appended only to the fresh temporary copy `body.md` in
the newly created temporary directory, and no write or append targets the
template path. -/
theorem init_template_only_copied (env : Env) (lvl : SemverLevel)
    (ho g a q i j1 b j2 d br co bu cm pu pr : String)
    (hh : env.exec headCmd = .ok ho)
    (hg : env.exec ghVersionCmd = .ok g)
    (ha : env.exec ghAuthCmd = .ok a)
    (hq : env.exec jqVersionCmd = .ok q)
    (hi : env.exec npmInstallCmd = .ok i)
    (hj1 : env.exec (jqCmd (releasedJsonPath env)) = .ok j1)
    (hb : env.exec buildCmd = .ok b)
    (hj2 : env.exec (jqCmd (preparedJsonPath env)) = .ok j2)
    (hd : env.exec (diffCmd (releasedPrettyFp env) (preparedPrettyFp env)) = .ok d ∨
      ∃ e, env.exec (diffCmd (releasedPrettyFp env) (preparedPrettyFp env)) = .err 1 d e)
    (hbr : env.exec (branchCmd (releaseBranchName env) (jsTrim ho)) = .ok br)
    (hco : env.exec (checkoutCmd (releaseBranchName env)) = .ok co)
    (hbu : env.exec (bumpCmd lvl) = .ok bu)
    (hcm : env.exec
      (commitCmd ("Increment " ++ lvl.str ++ " version to v" ++ bumpedVersion env)) = .ok cm)
    (hpu : env.exec (pushCmd (releaseBranchName env)) = .ok pu)
    (hpr : env.exec (prCreateCmd ("📦 Release web-features@" ++ bumpedVersion env)
      (prBodyFp env) (releaseBranchName env)) = .ok pr)
    (hne1 : releasedPrettyFp env ≠ env.bodyTemplatePath)
    (hne2 : preparedPrettyFp env ≠ env.bodyTemplatePath)
    (hne3 : prBodyFp env ≠ env.bodyTemplatePath) :
    Event.copyFile env.bodyTemplatePath (prBodyFp env) ∈ (init env lvl).trace ∧
    Event.appendFile (prBodyFp env) (diffFence d) ∈ (init env lvl).trace ∧
    (∀ p c, Event.writeFile p c ∈ (init env lvl).trace → p ≠ env.bodyTemplatePath) ∧
    (∀ p c, Event.appendFile p c ∈ (init env lvl).trace →
      p = prBodyFp env ∧ p ≠ env.bodyTemplatePath) := by
  rw [init_ok_eval env lvl ho g a q i j1 b j2 d br co bu cm pu pr hh hg ha hq hi hj1 hb hj2
    hd hbr hco hbu hcm hpu hpr]
  refine ⟨by simp [initOkTrace], by simp [initOkTrace], ?_, ?_⟩
  · intro p c hp
    simp [initOkTrace, diffOkTrace] at hp
    rcases hp with ⟨hp, _⟩ | ⟨hp, _⟩
    · rw [hp]; exact hne1
    · rw [hp]; exact hne2
  · intro p c hp
    simp [initOkTrace, diffOkTrace] at hp
    obtain ⟨hp, _⟩ := hp
    rw [hp]
    exact ⟨rfl, hne3⟩

/-- Witness for C8 at a concrete environment. -/
theorem init_template_only_copied_witness :
    Event.copyFile okEnv.bodyTemplatePath (prBodyFp okEnv) ∈ (init okEnv .patch).trace ∧
    Event.appendFile (prBodyFp okEnv) (diffFence "OUT") ∈ (init okEnv .patch).trace ∧
    (∀ p c, Event.writeFile p c ∈ (init okEnv .patch).trace → p ≠ okEnv.bodyTemplatePath) ∧
    (∀ p c, Event.appendFile p c ∈ (init okEnv .patch).trace →
      p = prBodyFp okEnv ∧ p ≠ okEnv.bodyTemplatePath) :=
  init_template_only_copied okEnv .patch "OUT" "OUT" "OUT" "OUT" "OUT" "OUT" "OUT" "OUT"
    "OUT" "OUT" "OUT" "OUT" "OUT" "OUT" "OUT"
    (by decide) (by decide) (by decide) (by decide) (by decide) (by decide) (by decide)
    (by decide) (Or.inl (by decide)) (by decide) (by decide) (by decide) (by decide)
    (by decide) (by decide) (by decide) (by decide) (by decide)

/-- C10: within one completing `init` run, the version in the commit message
and the version in the pull-request title are the same value — the manifest
version parsed once after the bump. -/
theorem init_commit_pr_version_agree (env : Env) (lvl : SemverLevel)
    (ho g a q i j1 b j2 d br co bu cm pu pr : String)
    (hh : env.exec headCmd = .ok ho)
    (hg : env.exec ghVersionCmd = .ok g)
    (ha : env.exec ghAuthCmd = .ok a)
    (hq : env.exec jqVersionCmd = .ok q)
    (hi : env.exec npmInstallCmd = .ok i)
    (hj1 : env.exec (jqCmd (releasedJsonPath env)) = .ok j1)
    (hb : env.exec buildCmd = .ok b)
    (hj2 : env.exec (jqCmd (preparedJsonPath env)) = .ok j2)
    (hd : env.exec (diffCmd (releasedPrettyFp env) (preparedPrettyFp env)) = .ok d ∨
      ∃ e, env.exec (diffCmd (releasedPrettyFp env) (preparedPrettyFp env)) = .err 1 d e)
    (hbr : env.exec (branchCmd (releaseBranchName env) (jsTrim ho)) = .ok br)
    (hco : env.exec (checkoutCmd (releaseBranchName env)) = .ok co)
    (hbu : env.exec (bumpCmd lvl) = .ok bu)
    (hcm : env.exec
      (commitCmd ("Increment " ++ lvl.str ++ " version to v" ++ bumpedVersion env)) = .ok cm)
    (hpu : env.exec (pushCmd (releaseBranchName env)) = .ok pu)
    (hpr : env.exec (prCreateCmd ("📦 Release web-features@" ++ bumpedVersion env)
      (prBodyFp env) (releaseBranchName env)) = .ok pr) :
    ∃ v, v = bumpedVersion env ∧
      Event.exec (commitCmd ("Increment " ++ lvl.str ++ " version to v" ++ v))
        ∈ (init env lvl).trace ∧
      Event.exec (prCreateCmd ("📦 Release web-features@" ++ v) (prBodyFp env)
        (releaseBranchName env)) ∈ (init env lvl).trace := by
  rw [init_ok_eval env lvl ho g a q i j1 b j2 d br co bu cm pu pr hh hg ha hq hi hj1 hb hj2
    hd hbr hco hbu hcm hpu hpr]
  exact ⟨bumpedVersion env, rfl, by simp [initOkTrace], by simp [initOkTrace]⟩

/-- Witness for C10 at a concrete environment. -/
theorem init_commit_pr_version_agree_witness :
    ∃ v, v = bumpedVersion okEnv ∧
      Event.exec (commitCmd ("Increment " ++ SemverLevel.str .patch ++ " version to v" ++ v))
        ∈ (init okEnv .patch).trace ∧
      Event.exec (prCreateCmd ("📦 Release web-features@" ++ v) (prBodyFp okEnv)
        (releaseBranchName okEnv)) ∈ (init okEnv .patch).trace :=
  init_commit_pr_version_agree okEnv .patch "OUT" "OUT" "OUT" "OUT" "OUT" "OUT" "OUT" "OUT"
    "OUT" "OUT" "OUT" "OUT" "OUT" "OUT" "OUT"
    (by decide) (by decide) (by decide) (by decide) (by decide) (by decide) (by decide)
    (by decide) (Or.inl (by decide)) (by decide) (by decide) (by decide) (by decide)
    (by decide) (by decide)

end Release
